import Mathlib

/-!
Verification of the `xtd::optional<T>` value container from `src/xtd/optional.hpp`.

The optional is shallowly embedded as `Option α`: `none` is the *disengaged*
state, `some v` the *engaged* state holding the contained value `v`.  Every
mutating operation of the C++ class is translated into a pure function that
returns the new state together with the list of operations it performed on the
contained type `T` (`TEvent`): constructor calls (copy, move and in-place
construction are counted alike), destructor calls, and calls to `T`'s
assignment operator.  Exception-throwing constructors of `T` are modelled by
`Except Unit α` in the `E`-suffixed variants of the operations.
-/

namespace XtdOpt

/-- An operation performed on the contained type `T`: a constructor call
(copy, move or in-place, counted together), a destructor call, or a call to
`T`'s assignment operator. -/
inductive TEvent : Type
  | ctor : TEvent
  | dtor : TEvent
  | assign : TEvent
deriving DecidableEq, Repr

/-- Number of `T` constructor calls in a trace. -/
def ctorCount (t : List TEvent) : Nat := t.count TEvent.ctor

/-- Number of `T` destructor calls in a trace. -/
def dtorCount (t : List TEvent) : Nat := t.count TEvent.dtor

/-- Number of `T` assignment-operator calls in a trace. -/
def assignCount (t : List TEvent) : Nat := t.count TEvent.assign

/-- `optional::disengage()`: if engaged, `_storage.destroy()` runs the
contained destructor and clears the engaged flag; otherwise nothing happens
(`src/xtd/optional.hpp:444`). -/
def disengage (s : Option α) : Option α × List TEvent :=
  match s with
  | some _ => (none, [TEvent.dtor])
  | none => (none, [])

/-- `optional::engage(args)`: `_storage.construct` placement-news a `T` from
the arguments and sets the engaged flag; the caller asserts the optional is
disengaged (`src/xtd/optional.hpp:449`). -/
def engage (v : α) (_s : Option α) : Option α × List TEvent :=
  (some v, [TEvent.ctor])

/-- `optional::operator=(const optional&)`, the four-way assignment matrix
(`src/xtd/optional.hpp:277`): both engaged assigns through `T::operator=`;
engaged := disengaged disengages; disengaged := engaged engages by
copy-construction; otherwise nothing happens. -/
def assignCopy (dst src : Option α) : Option α × List TEvent :=
  match dst, src with
  | some _, some v => (some v, [TEvent.assign])
  | some _, none => disengage dst
  | none, some v => engage v dst
  | none, none => (none, [])

/-- `optional::operator=(optional&&)` (`src/xtd/optional.hpp:293`): same
matrix as copy assignment with move-assign/move-construct; the source's
engaged flag is never touched, so the result also reports the source state
after the operation. -/
def assignMove (dst src : Option α) : (Option α × Option α) × List TEvent :=
  match dst, src with
  | some _, some v => ((some v, src), [TEvent.assign])
  | some _, none => (((disengage dst).1, src), (disengage dst).2)
  | none, some v => (((engage v dst).1, src), (engage v dst).2)
  | none, none => ((none, src), [])

/-- `optional::operator=(U&&)` value assignment (`src/xtd/optional.hpp:313`):
assign into the existing value if engaged, otherwise engage from the value. -/
def assignValue (dst : Option α) (v : α) : Option α × List TEvent :=
  match dst with
  | some _ => (some v, [TEvent.assign])
  | none => engage v dst

/-- `optional::emplace(args)` (`src/xtd/optional.hpp:327`): literally
`disengage(); engage(args);`. -/
def emplace (v : α) (s : Option α) : Option α × List TEvent :=
  let d := disengage s
  let e := engage v d.1
  (e.1, d.2 ++ e.2)

/-- `optional(const optional&)` copy construction (`src/xtd/optional.hpp:203`):
the storage copy constructor placement-news a copy only when the source is
engaged. -/
def constructCopyFrom (src : Option α) : Option α × List TEvent :=
  match src with
  | some v => (some v, [TEvent.ctor])
  | none => (none, [])

/-- `optional(optional&&)` move construction (`src/xtd/optional.hpp:212`):
move-constructs from the source value when engaged; the source's engaged flag
is never modified, so the result also reports the source state afterwards. -/
def constructMoveFrom (src : Option α) : (Option α × Option α) × List TEvent :=
  match src with
  | some v => ((some v, src), [TEvent.ctor])
  | none => ((none, src), [])

/-- The generic `std::swap` three-move exchange used by `optional::swap` when
both sides are engaged: a move construction of the temporary, two move
assignments, and the destruction of the temporary at scope exit. -/
def stdSwap (x y : α) : (α × α) × List TEvent :=
  ((y, x), [TEvent.ctor, TEvent.assign, TEvent.assign, TEvent.dtor])

/-- `optional::swap(optional&)` (`src/xtd/optional.hpp:353`): both engaged
swaps the contained values; exactly one engaged move-constructs into the
disengaged side and disengages the source side; both disengaged does
nothing. -/
def swapOpt (a b : Option α) : (Option α × Option α) × List TEvent :=
  match a, b with
  | some x, some y =>
    let r := stdSwap x y
    ((some r.1.1, some r.1.2), r.2)
  | none, some y =>
    let e := engage y a
    let d := disengage b
    ((e.1, d.1), e.2 ++ d.2)
  | some x, none =>
    let e := engage x b
    let d := disengage a
    ((d.1, e.1), e.2 ++ d.2)
  | none, none => ((none, none), [])

/-- The error raised by checked access into a disengaged optional
(`xtd::bad_optional_access`, `src/xtd/optional.hpp:39`). -/
inductive OptError : Type
  | disengagedAccess : OptError
deriving DecidableEq, Repr

/-- `optional::value()` (`src/xtd/optional.hpp:410`): throw
`bad_optional_access` when disengaged, otherwise return a reference to the
stored value; the function never mutates the optional, so the observable
state afterwards is returned unchanged alongside the access result. -/
def valueOp (s : Option α) : Except OptError α × Option α :=
  match s with
  | some v => (Except.ok v, s)
  | none => (Except.error OptError.disengagedAccess, s)

/-- `std::hash<xtd::optional<Key>>::operator()` (`src/xtd/optional.hpp:686`):
`k ? hash<Key>{}(*k) : result_type{}`, with `h` standing for `hash<Key>` and
the value-initialized `result_type{}` being `0`. -/
def hashOpt (h : α → Nat) : Option α → Nat
  | some v => h v
  | none => 0

/-- `operator<(const optional<T>&, const T&)` (`src/xtd/optional.hpp:626`):
`bool(opt) ? *opt < value : true`, with `lt` standing for `T::operator<`. -/
def ltOptVal (lt : α → α → Bool) (opt : Option α) (v : α) : Bool :=
  match opt with
  | some x => lt x v
  | none => true

/-- `operator<(const T&, const optional<T>&)` (`src/xtd/optional.hpp:632`):
`bool(opt) ? value < *opt : true`. -/
def ltValOpt (lt : α → α → Bool) (v : α) (opt : Option α) : Bool :=
  match opt with
  | some x => lt v x
  | none => true

/-- `operator>(const optional<T>&, const T&)` (`src/xtd/optional.hpp:639`):
`bool(opt) ? value < *opt : true`. -/
def gtOptVal (lt : α → α → Bool) (opt : Option α) (v : α) : Bool :=
  match opt with
  | some x => lt v x
  | none => true

/-- `operator>(const T&, const optional<T>&)` (`src/xtd/optional.hpp:645`):
`bool(opt) ? *opt < value : true`. -/
def gtValOpt (lt : α → α → Bool) (v : α) (opt : Option α) : Bool :=
  match opt with
  | some x => lt x v
  | none => true

/-- `operator<(const optional<T>&, nullopt_t)` (`src/xtd/optional.hpp:543`):
always `false`. -/
def ltOptNull (_opt : Option α) : Bool := false

/-- `operator<(nullopt_t, const optional<T>&)` (`src/xtd/optional.hpp:549`):
`bool(opt)`. -/
def ltNullOpt (opt : Option α) : Bool := opt.isSome

/-- Outcome of an optional operation during which a `T` constructor may throw:
the observable state of the optional afterwards, the `T` operations that
completed, and whether an exception propagated out. -/
structure TResult (α : Type) : Type where
  state : Option α
  trace : List TEvent
  threw : Bool
deriving DecidableEq, Repr

/-- `ValueStorage::construct` with a throwing constructor
(`src/xtd/optional.hpp:146`): the placement new runs first and only then is
`_engaged` set to `true`; if the constructor throws, no constructor call
completed and the engaged state is left as it was.  `c` is the outcome of the
`T` constructor call. -/
def engageE (c : Except Unit α) (s : Option α) : TResult α :=
  match c with
  | Except.ok v => ⟨some v, [TEvent.ctor], false⟩
  | Except.error _ => ⟨s, [], true⟩

/-- `optional::operator=(U&&)` with a throwing constructor: an engaged target
assigns through `T::operator=`; a disengaged target engages through
`ValueStorage::construct`, whose constructor call may throw. -/
def assignValueE (c : Except Unit α) (dst : Option α) : TResult α :=
  match dst with
  | some _ =>
    match c with
    | Except.ok v => ⟨some v, [TEvent.assign], false⟩
    | Except.error _ => ⟨dst, [], true⟩
  | none => engageE c dst

/-- `optional::operator=(const optional&)` with a throwing copy constructor
`c` of `T`: only the disengaged := engaged branch constructs, and it does so
through `ValueStorage::construct`. -/
def assignCopyE (c : α → Except Unit α) (dst src : Option α) : TResult α :=
  match dst, src with
  | some _, some v => ⟨some v, [TEvent.assign], false⟩
  | some _, none => ⟨none, [TEvent.dtor], false⟩
  | none, some v => engageE (c v) dst
  | none, none => ⟨none, [], false⟩

/-- `optional::emplace(args)` with a throwing constructor: `disengage()` runs
first and always completes, then `engage(args)` constructs; on a throw the
previous value is already destroyed and the optional stays disengaged. -/
def emplaceE (c : Except Unit α) (s : Option α) : TResult α :=
  let d := disengage s
  let e := engageE c d.1
  ⟨e.state, d.2 ++ e.trace, e.threw⟩

/-- `optional::swap` with a throwing move constructor `c` of `T`: in the
branches with exactly one engaged side, `engage(std::move(...))` runs before
the source side is disengaged, so a throw leaves the disengaged side
disengaged and the engaged side untouched.  Returns both post-states, the
trace, and whether an exception propagated. -/
def swapE (c : α → Except Unit α) (a b : Option α) :
    (Option α × Option α) × List TEvent × Bool :=
  match a, b with
  | some x, some y =>
    let r := stdSwap x y
    ((some r.1.1, some r.1.2), r.2, false)
  | none, some y =>
    let e := engageE (c y) a
    if e.threw then ((e.state, b), e.trace, true)
    else
      let d := disengage b
      ((e.state, d.1), e.trace ++ d.2, false)
  | some x, none =>
    let e := engageE (c x) b
    if e.threw then ((a, e.state), e.trace, true)
    else
      let d := disengage a
      ((d.1, e.state), e.trace ++ d.2, false)
  | none, none => ((none, none), [], false)

/-! ### The two `ValueStorageHolder` specializations

`ValueStorageHolder<T, true>` (`src/xtd/optional.hpp:64`) is selected for
trivially destructible `T` and has no destructor of its own;
`ValueStorageHolder<T, false>` (`src/xtd/optional.hpp:90`) runs
`_value.T::~T()` in its destructor when engaged.  Each specialization is
embedded separately: a state is the engaged flag plus the contents of the
raw union (`none` while no `T` object has been constructed in it), and the
operations of `ValueStorage` (`construct`, `destroy`) act on it.  Scope exit
is the only place the two differ. -/

/-- State of the trivially-destructible specialization
`ValueStorageHolder<T, true>`. -/
structure TrivStorage (α : Type) : Type where
  engaged : Bool
  store : Option α
deriving DecidableEq, Repr

/-- State of the general specialization `ValueStorageHolder<T, false>`. -/
structure GenStorage (α : Type) : Type where
  engaged : Bool
  store : Option α
deriving DecidableEq, Repr

/-- An operation of `ValueStorage` on its holder: `construct(args)` or
`destroy()` (`src/xtd/optional.hpp:146` and `src/xtd/optional.hpp:153`). -/
inductive StorageOp (α : Type) : Type
  | construct (v : α) : StorageOp α
  | destroy : StorageOp α

/-- Default constructor of `ValueStorageHolder<T, true>`: disengaged, union
uninitialized (`src/xtd/optional.hpp:68`). -/
def TrivStorage.initDefault : TrivStorage α := ⟨false, none⟩

/-- Value-forwarding constructor of `ValueStorageHolder<T, true>`: engaged
with the constructed value (`src/xtd/optional.hpp:72`). -/
def TrivStorage.initValue (v : α) : TrivStorage α := ⟨true, some v⟩

/-- `in_place` constructor of `ValueStorageHolder<T, true>`: engaged per the
flag, constructing only when engaged (`src/xtd/optional.hpp:76`). -/
def TrivStorage.initInPlace (engaged : Bool) (v : α) : TrivStorage α :=
  ⟨engaged, if engaged then some v else none⟩

/-- `ValueStorage::construct` / `ValueStorage::destroy` acting on the
trivially-destructible holder. -/
def TrivStorage.step (s : TrivStorage α) : StorageOp α → TrivStorage α × List TEvent
  | StorageOp.construct v => (⟨true, some v⟩, [TEvent.ctor])
  | StorageOp.destroy => (⟨false, none⟩, [TEvent.dtor])

/-- Scope exit of `ValueStorageHolder<T, true>`: no destructor is declared,
so no `T` destructor call happens. -/
def TrivStorage.scopeExit (_s : TrivStorage α) : List TEvent := []

/-- Run a sequence of storage operations on the trivially-destructible
holder, accumulating the `T` operations performed. -/
def TrivStorage.run (s : TrivStorage α) : List (StorageOp α) → TrivStorage α × List TEvent
  | [] => (s, [])
  | op :: ops =>
    let r := TrivStorage.step s op
    let rest := TrivStorage.run r.1 ops
    (rest.1, r.2 ++ rest.2)

/-- Default constructor of `ValueStorageHolder<T, false>`
(`src/xtd/optional.hpp:94`). -/
def GenStorage.initDefault : GenStorage α := ⟨false, none⟩

/-- Value-forwarding constructor of `ValueStorageHolder<T, false>`
(`src/xtd/optional.hpp:98`). -/
def GenStorage.initValue (v : α) : GenStorage α := ⟨true, some v⟩

/-- `in_place` constructor of `ValueStorageHolder<T, false>`
(`src/xtd/optional.hpp:102`). -/
def GenStorage.initInPlace (engaged : Bool) (v : α) : GenStorage α :=
  ⟨engaged, if engaged then some v else none⟩

/-- `ValueStorage::construct` / `ValueStorage::destroy` acting on the
general holder. -/
def GenStorage.step (s : GenStorage α) : StorageOp α → GenStorage α × List TEvent
  | StorageOp.construct v => (⟨true, some v⟩, [TEvent.ctor])
  | StorageOp.destroy => (⟨false, none⟩, [TEvent.dtor])

/-- Scope exit of `ValueStorageHolder<T, false>`: `~ValueStorageHolder` runs
`_value.T::~T()` when engaged (`src/xtd/optional.hpp:107`). -/
def GenStorage.scopeExit (s : GenStorage α) : List TEvent :=
  if s.engaged then [TEvent.dtor] else []

/-- Run a sequence of storage operations on the general holder. -/
def GenStorage.run (s : GenStorage α) : List (StorageOp α) → GenStorage α × List TEvent
  | [] => (s, [])
  | op :: ops =>
    let r := GenStorage.step s op
    let rest := GenStorage.run r.1 ops
    (rest.1, r.2 ++ rest.2)

/-- The observable part of a holder state: the engaged flag and, when
engaged, the contained value. -/
def TrivStorage.obs (s : TrivStorage α) : Bool × Option α :=
  (s.engaged, if s.engaged then s.store else none)

/-- The observable part of the general holder state. -/
def GenStorage.obs (s : GenStorage α) : Bool × Option α :=
  (s.engaged, if s.engaged then s.store else none)

/-! ### A world of optional instances

To state the global construction/destruction balance, a program state is a
list of optional instances; an operation sequence acts on it by index.
Out-of-range indices leave the world untouched (such a step corresponds to no
real program). -/

/-- A collection of live `optional<T>` instances. -/
abbrev World (α : Type) := List (Option α)

/-- Read the instance at index `i` (out of range reads as disengaged). -/
def wget : List (Option α) → Nat → Option α
  | [], _ => none
  | x :: _, 0 => x
  | _ :: xs, n + 1 => wget xs n

/-- Replace the instance at index `i` (out of range is a no-op). -/
def wset : List (Option α) → Nat → Option α → List (Option α)
  | [], _, _ => []
  | _ :: xs, 0, y => y :: xs
  | x :: xs, n + 1, y => x :: wset xs n y

/-- `1` for an engaged instance, `0` for a disengaged one. -/
def eCnt : Option α → Nat
  | some _ => 1
  | none => 0

/-- Number of engaged instances in the world. -/
def engagedCount : List (Option α) → Nat
  | [] => 0
  | x :: xs => eCnt x + engagedCount xs

/-- One step of a program acting on a collection of optionals: construction
of a fresh instance (default, from a value, copy or move from an existing
instance), the assignment forms, emplace, swap, and running an instance's
destructor. -/
inductive ProgOp (α : Type) : Type
  | newDefault : ProgOp α
  | newValue (v : α) : ProgOp α
  | newCopy (src : Nat) : ProgOp α
  | newMove (src : Nat) : ProgOp α
  | opAssignNull (i : Nat) : ProgOp α
  | opAssignCopy (i j : Nat) : ProgOp α
  | opAssignMove (i j : Nat) : ProgOp α
  | opAssignValue (i : Nat) (v : α) : ProgOp α
  | opEmplace (i : Nat) (v : α) : ProgOp α
  | opSwap (i j : Nat) : ProgOp α
  | opDestroy (i : Nat) : ProgOp α

/-- Apply one program step to the world, returning the new world and the `T`
operations performed.  Construction steps append a new instance; `opDestroy`
runs `~ValueStorageHolder` (destroying the contained value when engaged),
modelled by leaving a disengaged slot behind. -/
def step (w : World α) : ProgOp α → World α × List TEvent
  | ProgOp.newDefault => (w ++ [none], [])
  | ProgOp.newValue v => (w ++ [some v], [TEvent.ctor])
  | ProgOp.newCopy src =>
    let r := constructCopyFrom (wget w src)
    (w ++ [r.1], r.2)
  | ProgOp.newMove src =>
    let r := constructMoveFrom (wget w src)
    (wset w src r.1.2 ++ [r.1.1], r.2)
  | ProgOp.opAssignNull i =>
    if i < w.length then
      let r := disengage (wget w i)
      (wset w i r.1, r.2)
    else (w, [])
  | ProgOp.opAssignCopy i j =>
    if i < w.length ∧ j < w.length then
      let r := assignCopy (wget w i) (wget w j)
      (wset w i r.1, r.2)
    else (w, [])
  | ProgOp.opAssignMove i j =>
    if i < w.length ∧ j < w.length then
      let r := assignMove (wget w i) (wget w j)
      (wset (wset w j r.1.2) i r.1.1, r.2)
    else (w, [])
  | ProgOp.opAssignValue i v =>
    if i < w.length then
      let r := assignValue (wget w i) v
      (wset w i r.1, r.2)
    else (w, [])
  | ProgOp.opEmplace i v =>
    if i < w.length then
      let r := emplace v (wget w i)
      (wset w i r.1, r.2)
    else (w, [])
  | ProgOp.opSwap i j =>
    if i < w.length ∧ j < w.length then
      let r := swapOpt (wget w i) (wget w j)
      (wset (wset w i r.1.1) j r.1.2, r.2)
    else (w, [])
  | ProgOp.opDestroy i =>
    if i < w.length then
      let r := disengage (wget w i)
      (wset w i r.1, r.2)
    else (w, [])

/-- Run a program from a world with an accumulated trace. -/
def runFrom (w : World α) (t : List TEvent) : List (ProgOp α) → World α × List TEvent
  | [] => (w, t)
  | op :: ops =>
    let r := step w op
    runFrom r.1 (t ++ r.2) ops

/-- The `T` destructor calls performed when all remaining instances go out of
scope: one per engaged instance. -/
def destroyAllTrace (w : World α) : List TEvent :=
  List.replicate (engagedCount w) TEvent.dtor

theorem length_wset (w : List (Option α)) (i : Nat) (y : Option α) :
    (wset w i y).length = w.length := by
  induction w generalizing i with
  | nil => rfl
  | cons x xs ih =>
    cases i with
    | zero => rfl
    | succ n => simpa [wset] using ih n

theorem wset_wset_same (w : List (Option α)) (i : Nat) (a b : Option α) :
    wset (wset w i a) i b = wset w i b := by
  induction w generalizing i with
  | nil => rfl
  | cons x xs ih =>
    cases i with
    | zero => rfl
    | succ n => simpa [wset] using ih n

theorem wget_wset_ne (w : List (Option α)) (i j : Nat) (a : Option α)
    (h : i ≠ j) : wget (wset w i a) j = wget w j := by
  induction w generalizing i j with
  | nil => rfl
  | cons x xs ih =>
    cases i with
    | zero =>
      cases j with
      | zero => exact absurd rfl h
      | succ m => rfl
    | succ n =>
      cases j with
      | zero => rfl
      | succ m =>
        simpa [wset, wget] using ih n m (fun hnm => h (by simpa using hnm))

theorem engagedCount_append (w : List (Option α)) (v : Option α) :
    engagedCount (w ++ [v]) = engagedCount w + eCnt v := by
  induction w with
  | nil => simp [engagedCount]
  | cons x xs ih => simp [engagedCount, ih]; omega

theorem engagedCount_wset (w : List (Option α)) (i : Nat) (y : Option α)
    (h : i < w.length) :
    engagedCount (wset w i y) + eCnt (wget w i) = engagedCount w + eCnt y := by
  induction w generalizing i with
  | nil => simp at h
  | cons x xs ih =>
    cases i with
    | zero => simp [wset, wget, engagedCount]; omega
    | succ n =>
      have hn : n < xs.length := by simpa using h
      have := ih n hn
      simp [wset, wget, engagedCount]
      omega

theorem wset_self (w : List (Option α)) (i : Nat) :
    wset w i (wget w i) = w := by
  induction w generalizing i with
  | nil => rfl
  | cons x xs ih =>
    cases i with
    | zero => rfl
    | succ n => simpa [wset, wget] using ih n

theorem ctorCount_append (s t : List TEvent) :
    ctorCount (s ++ t) = ctorCount s + ctorCount t := by
  simp [ctorCount]

theorem dtorCount_append (s t : List TEvent) :
    dtorCount (s ++ t) = dtorCount s + dtorCount t := by
  simp [dtorCount]

theorem ctorCount_replicate_dtor (n : Nat) :
    ctorCount (List.replicate n TEvent.dtor) = 0 := by
  induction n with
  | zero => rfl
  | succ m ih =>
    rw [List.replicate_succ]
    simpa [ctorCount, List.count_cons] using ih

theorem dtorCount_replicate_dtor (n : Nat) :
    dtorCount (List.replicate n TEvent.dtor) = n := by
  induction n with
  | zero => rfl
  | succ m ih =>
    rw [List.replicate_succ]
    simp [dtorCount, List.count_cons] at ih ⊢

theorem ctorCount_destroyAll (w : World α) :
    ctorCount (destroyAllTrace w) = 0 :=
  ctorCount_replicate_dtor (engagedCount w)

theorem dtorCount_destroyAll (w : World α) :
    dtorCount (destroyAllTrace w) = engagedCount w :=
  dtorCount_replicate_dtor (engagedCount w)

/-- A single-slot update whose local trace balances the local engaged-state
change balances the whole world. -/
theorem balance_single (w : World α) (i : Nat) (hi : i < w.length)
    (r : Option α × List TEvent)
    (hr : ctorCount r.2 + eCnt (wget w i) = dtorCount r.2 + eCnt r.1) :
    ctorCount r.2 + engagedCount w = dtorCount r.2 + engagedCount (wset w i r.1) := by
  have h := engagedCount_wset w i r.1 hi
  omega

theorem disengage_balance (s : Option α) :
    ctorCount (disengage s).2 + eCnt s
      = dtorCount (disengage s).2 + eCnt (disengage s).1 := by
  cases s <;> rfl

theorem assignCopy_balance (dst src : Option α) :
    ctorCount (assignCopy dst src).2 + eCnt dst
      = dtorCount (assignCopy dst src).2 + eCnt (assignCopy dst src).1 := by
  cases dst <;> cases src <;> rfl

theorem assignMove_src (dst src : Option α) :
    (assignMove dst src).1.2 = src := by
  cases dst <;> cases src <;> rfl

theorem assignMove_balance (dst src : Option α) :
    ctorCount (assignMove dst src).2 + eCnt dst
      = dtorCount (assignMove dst src).2 + eCnt (assignMove dst src).1.1 := by
  cases dst <;> cases src <;> rfl

theorem assignValue_balance (dst : Option α) (v : α) :
    ctorCount (assignValue dst v).2 + eCnt dst
      = dtorCount (assignValue dst v).2 + eCnt (assignValue dst v).1 := by
  cases dst <;> rfl

theorem emplace_balance (s : Option α) (v : α) :
    ctorCount (emplace v s).2 + eCnt s
      = dtorCount (emplace v s).2 + eCnt (emplace v s).1 := by
  cases s <;> rfl

theorem constructMoveFrom_src (src : Option α) :
    (constructMoveFrom src).1.2 = src := by
  cases src <;> rfl

/-- Each program step conserves the difference between completed `T`
constructor calls and `T` destructor calls: the trace it adds accounts
exactly for the change in the number of engaged instances. -/
theorem step_balance (w : World α) (op : ProgOp α) :
    ctorCount (step w op).2 + engagedCount w
      = dtorCount (step w op).2 + engagedCount (step w op).1 := by
  cases op with
  | newDefault =>
    simp [step, engagedCount_append, ctorCount, dtorCount, eCnt]
  | newValue v =>
    simp [step, engagedCount_append, ctorCount, dtorCount, eCnt]
    omega
  | newCopy src =>
    cases hu : wget w src <;>
      simp [step, hu, constructCopyFrom, engagedCount_append, ctorCount,
        dtorCount, eCnt] <;>
      omega
  | newMove src =>
    cases hu : wget w src with
    | none =>
      have hw : wset w src (none : Option α) = w := by
        have h := wset_self w src
        rwa [hu] at h
      simp [step, hu, constructMoveFrom, hw, engagedCount_append, ctorCount,
        dtorCount, eCnt]
    | some x =>
      have hw : wset w src (some x) = w := by
        have h := wset_self w src
        rwa [hu] at h
      simp [step, hu, constructMoveFrom, hw, engagedCount_append, ctorCount,
        dtorCount, eCnt]
      omega
  | opAssignNull i =>
    by_cases hi : i < w.length
    · simpa [step, hi] using balance_single w i hi (disengage (wget w i))
        (disengage_balance (wget w i))
    · simp [step, hi, ctorCount, dtorCount]
  | opAssignCopy i j =>
    by_cases hij : i < w.length ∧ j < w.length
    · simpa [step, hij] using balance_single w i hij.1
        (assignCopy (wget w i) (wget w j))
        (assignCopy_balance (wget w i) (wget w j))
    · simp [step, hij, ctorCount, dtorCount]
  | opAssignMove i j =>
    by_cases hij : i < w.length ∧ j < w.length
    · have hsrc : wset w j (assignMove (wget w i) (wget w j)).1.2 = w := by
        rw [assignMove_src, wset_self]
      have hb := balance_single w i hij.1
        ((assignMove (wget w i) (wget w j)).1.1,
          (assignMove (wget w i) (wget w j)).2)
        (assignMove_balance (wget w i) (wget w j))
      simpa [step, hij, hsrc] using hb
    · simp [step, hij, ctorCount, dtorCount]
  | opAssignValue i v =>
    by_cases hi : i < w.length
    · simpa [step, hi] using balance_single w i hi (assignValue (wget w i) v)
        (assignValue_balance (wget w i) v)
    · simp [step, hi, ctorCount, dtorCount]
  | opEmplace i v =>
    by_cases hi : i < w.length
    · simpa [step, hi] using balance_single w i hi (emplace v (wget w i))
        (emplace_balance (wget w i) v)
    · simp [step, hi, ctorCount, dtorCount]
  | opSwap i j =>
    by_cases hij : i < w.length ∧ j < w.length
    · by_cases hijeq : i = j
      · subst hijeq
        cases hu : wget w i with
        | none =>
          have h := engagedCount_wset w i none hij.1
          rw [hu] at h
          simp [step, hij, hu, swapOpt, wset_wset_same, ctorCount, dtorCount,
            eCnt] at h ⊢
          omega
        | some x =>
          have h := engagedCount_wset w i (some x) hij.1
          rw [hu] at h
          simp [step, hij, hu, swapOpt, stdSwap, wset_wset_same, ctorCount,
            dtorCount, eCnt] at h ⊢
          omega
      · have hj2 : j < (wset w i (swapOpt (wget w i) (wget w j)).1.1).length := by
          rw [length_wset]; exact hij.2
        have h2 := engagedCount_wset
          (wset w i (swapOpt (wget w i) (wget w j)).1.1) j
          (swapOpt (wget w i) (wget w j)).1.2 hj2
        rw [wget_wset_ne w i j _ hijeq] at h2
        have h1 := engagedCount_wset w i (swapOpt (wget w i) (wget w j)).1.1 hij.1
        cases hu : wget w i <;> cases hv : wget w j <;>
          rw [hu, hv] at h1 h2 <;>
          simp [step, hij, hu, hv, swapOpt, stdSwap, engage, disengage,
            ctorCount, dtorCount, eCnt] at h1 h2 ⊢ <;>
          omega
    · simp [step, hij, ctorCount, dtorCount]
  | opDestroy i =>
    by_cases hi : i < w.length
    · simpa [step, hi] using balance_single w i hi (disengage (wget w i))
        (disengage_balance (wget w i))
    · simp [step, hi, ctorCount, dtorCount]

/-- Running a program preserves the balance invariant: the constructor count
of the accumulated trace equals its destructor count plus the number of
currently engaged instances. -/
theorem runFrom_balance (ops : List (ProgOp α)) :
    ∀ (w : World α) (t : List TEvent),
      ctorCount t = dtorCount t + engagedCount w →
      ctorCount (runFrom w t ops).2
        = dtorCount (runFrom w t ops).2 + engagedCount (runFrom w t ops).1 := by
  induction ops with
  | nil => intro w t h; simpa [runFrom] using h
  | cons op ops ih =>
    intro w t h
    have hs := step_balance w op
    have hc := ctorCount_append t (step w op).2
    have hd := dtorCount_append t (step w op).2
    exact ih (step w op).1 (t ++ (step w op).2) (by omega)

/-- The two holder specializations simulate each other step by step: from
states with the same engaged flag and union contents, any operation sequence
produces the same engaged flag, the same union contents and the same trace of
`T` operations. -/
theorem run_obs_eq (ops : List (StorageOp α)) :
    ∀ (t : TrivStorage α) (g : GenStorage α),
      t.engaged = g.engaged → t.store = g.store →
      (TrivStorage.run t ops).1.engaged = (GenStorage.run g ops).1.engaged ∧
        (TrivStorage.run t ops).1.store = (GenStorage.run g ops).1.store ∧
        (TrivStorage.run t ops).2 = (GenStorage.run g ops).2 := by
  induction ops with
  | nil => intro t g he hs; exact ⟨he, hs, rfl⟩
  | cons op ops ih =>
    intro t g he hs
    cases op with
    | construct v =>
      have h := ih ⟨true, some v⟩ ⟨true, some v⟩ rfl rfl
      refine ⟨?_, ?_, ?_⟩ <;>
        simp [TrivStorage.run, GenStorage.run, TrivStorage.step,
          GenStorage.step, h.1, h.2.1, h.2.2]
    | destroy =>
      have h := ih ⟨false, none⟩ ⟨false, none⟩ rfl rfl
      refine ⟨?_, ?_, ?_⟩ <;>
        simp [TrivStorage.run, GenStorage.run, TrivStorage.step,
          GenStorage.step, h.1, h.2.1, h.2.2]

end XtdOpt

/-- C2: for every finite sequence of construct/assign/emplace/swap/copy/move/
destroy operations on any collection of optionals, once all remaining
instances are destroyed the total number of `T` destructor calls equals the
total number of `T` constructor calls: no value is leaked and no value is
destroyed twice. -/
theorem construction_destruction_balance {α : Type} (ops : List (XtdOpt.ProgOp α)) :
    XtdOpt.ctorCount ((XtdOpt.runFrom [] [] ops).2
        ++ XtdOpt.destroyAllTrace (XtdOpt.runFrom [] [] ops).1)
      = XtdOpt.dtorCount ((XtdOpt.runFrom [] [] ops).2
        ++ XtdOpt.destroyAllTrace (XtdOpt.runFrom [] [] ops).1) := by
  have h := XtdOpt.runFrom_balance ops [] [] (by rfl)
  have hc := XtdOpt.ctorCount_append (XtdOpt.runFrom ([] : XtdOpt.World α) [] ops).2
    (XtdOpt.destroyAllTrace (XtdOpt.runFrom [] [] ops).1)
  have hd := XtdOpt.dtorCount_append (XtdOpt.runFrom ([] : XtdOpt.World α) [] ops).2
    (XtdOpt.destroyAllTrace (XtdOpt.runFrom [] [] ops).1)
  have h0 := XtdOpt.ctorCount_destroyAll (XtdOpt.runFrom ([] : XtdOpt.World α) [] ops).1
  have h1 := XtdOpt.dtorCount_destroyAll (XtdOpt.runFrom ([] : XtdOpt.World α) [] ops).1
  omega

/-- C1: copy-assignment follows the four-way matrix: disengaged := disengaged
is a no-op with no `T` operation; disengaged := engaged copy-constructs the
value and engages the target; engaged := disengaged destroys the target value
and disengages it; engaged := engaged copy-assigns through `T::operator=`
exactly once, with zero `T` constructor and zero `T` destructor calls. -/
theorem copy_assign_matrix {α : Type} (x y v : α) :
    XtdOpt.assignCopy (none : Option α) none = (none, []) ∧
    XtdOpt.assignCopy (none : Option α) (some v) = (some v, [XtdOpt.TEvent.ctor]) ∧
    XtdOpt.assignCopy (some x) (none : Option α) = (none, [XtdOpt.TEvent.dtor]) ∧
    (XtdOpt.assignCopy (some x) (some y) = (some y, [XtdOpt.TEvent.assign]) ∧
      XtdOpt.ctorCount (XtdOpt.assignCopy (some x) (some y)).2 = 0 ∧
      XtdOpt.dtorCount (XtdOpt.assignCopy (some x) (some y)).2 = 0 ∧
      XtdOpt.assignCount (XtdOpt.assignCopy (some x) (some y)).2 = 1) := by
  refine ⟨rfl, rfl, rfl, rfl, ?_, ?_, ?_⟩ <;> rfl

/-- C3: every disengaged-to-engaged transition (value assignment, copy
assignment from an engaged source, emplace, swap into the disengaged side)
constructs the new `T` through `ValueStorage::construct`, which sets the
engaged flag only after the constructor completed; if the constructor throws,
the optional is still disengaged and no partially-constructed value is
observable, while a completing constructor yields exactly the constructed
value. -/
theorem disengaged_to_engaged_ctor_safety {α : Type} (c : Except Unit α)
    (cc : α → Except Unit α) (y : α) (s : Option α)
    (hc : c = Except.error ()) (hcc : cc y = Except.error ()) :
    ((XtdOpt.engageE c none).state = none ∧ (XtdOpt.engageE c none).threw = true) ∧
    (XtdOpt.assignValueE c none).state = none ∧
    (XtdOpt.assignCopyE cc none (some y)).state = none ∧
    (XtdOpt.emplaceE c s).state = none ∧
    ((XtdOpt.swapE cc none (some y)).1.1 = none ∧
      (XtdOpt.swapE cc none (some y)).1.2 = some y) ∧
    (∀ w : α, (XtdOpt.engageE (Except.ok w) none).state = some w ∧
      (XtdOpt.engageE (Except.ok w) none).threw = false) := by
  subst hc
  refine ⟨⟨rfl, rfl⟩, rfl, ?_, ?_, ?_, fun w => ⟨rfl, rfl⟩⟩
  · simp [XtdOpt.assignCopyE, XtdOpt.engageE, hcc]
  · cases s <;> rfl
  · simp [XtdOpt.swapE, XtdOpt.engageE, hcc]

/-- Witness for `disengaged_to_engaged_ctor_safety` at a throwing constructor
over `Nat` with the target initially engaged at `1`. -/
theorem disengaged_to_engaged_ctor_safety_witness :
    (XtdOpt.emplaceE (Except.error () : Except Unit Nat) (some 1)).state = none :=
  (disengaged_to_engaged_ctor_safety (Except.error ()) (fun _ => Except.error ())
    0 (some 1) rfl rfl).2.2.2.1

/-- C4: `emplace` first runs `disengage()` — exactly one `T` destructor call
when engaged, none when disengaged — and then constructs the new value,
exactly one `T` constructor call, in that order; with a throwing constructor
the previous value is already destroyed and the optional ends disengaged. -/
theorem emplace_destroy_then_construct {α : Type} (x v : α) (c : Except Unit α)
    (hc : c = Except.error ()) :
    XtdOpt.emplace v (some x) = (some v, [XtdOpt.TEvent.dtor, XtdOpt.TEvent.ctor]) ∧
    XtdOpt.emplace v (none : Option α) = (some v, [XtdOpt.TEvent.ctor]) ∧
    ((XtdOpt.emplaceE c (some x)).state = none ∧
      (XtdOpt.emplaceE c (some x)).trace = [XtdOpt.TEvent.dtor] ∧
      (XtdOpt.emplaceE c (some x)).threw = true) := by
  subst hc
  exact ⟨rfl, rfl, rfl, rfl, rfl⟩

/-- Witness for `emplace_destroy_then_construct` over `Nat` with the optional
engaged at `1`, emplacing `2` with a throwing constructor on the `E` side. -/
theorem emplace_destroy_then_construct_witness :
    XtdOpt.emplace 2 (some 1) = (some 2, [XtdOpt.TEvent.dtor, XtdOpt.TEvent.ctor]) :=
  (emplace_destroy_then_construct 1 2 (Except.error ()) rfl).1

/-- C5: swapping engaged A with disengaged B yields A disengaged and B
engaged holding A's old value; swapping two engaged optionals exchanges the
two values with exactly one `T` destructor call in total (the dropped swap
intermediate); swapping two disengaged optionals performs no `T`
operation. -/
theorem swap_spec {α : Type} (x y : α) :
    XtdOpt.swapOpt (some x) (none : Option α) =
      ((none, some x), [XtdOpt.TEvent.ctor, XtdOpt.TEvent.dtor]) ∧
    ((XtdOpt.swapOpt (some x) (some y)).1 = (some y, some x) ∧
      XtdOpt.dtorCount (XtdOpt.swapOpt (some x) (some y)).2 = 1) ∧
    XtdOpt.swapOpt (none : Option α) none = ((none, none), []) := by
  exact ⟨rfl, ⟨rfl, rfl⟩, rfl⟩

/-- C6: the checked accessor raises the disengaged-access error exactly when
the optional is disengaged, returns the stored value when engaged, and in
both cases leaves the engaged state unchanged.  (`valueOp` is the only
operation in this development whose result can carry `OptError`, matching the
source where only `optional::value` throws `bad_optional_access`.) -/
theorem value_checked_access {α : Type} (v : α) (s : Option α) :
    (XtdOpt.valueOp (none : Option α)).1 =
      Except.error XtdOpt.OptError.disengagedAccess ∧
    (XtdOpt.valueOp (some v)).1 = Except.ok v ∧
    (∀ t : Option α,
      (XtdOpt.valueOp t).1 = Except.error XtdOpt.OptError.disengagedAccess →
        t = none) ∧
    (XtdOpt.valueOp s).2 = s := by
  refine ⟨rfl, rfl, fun t ht => ?_, ?_⟩
  · cases t with
    | none => rfl
    | some w => simp [XtdOpt.valueOp] at ht
  · cases s <;> rfl

/-- Witness for `value_checked_access` over `Nat` with value `7` and an
engaged optional holding `3`. -/
theorem value_checked_access_witness :
    (XtdOpt.valueOp (some 7)).1 = Except.ok 7 ∧
      (XtdOpt.valueOp ((some 3 : Option Nat))).2 = some 3 :=
  ⟨(value_checked_access 7 (some 3)).2.1, (value_checked_access 7 (some 3)).2.2.2⟩

/-- C7 counterexample: move-assigning from a disengaged source into an
engaged destination performs a `T` destructor call (it destroys the
destination's old value), refuting "moving from a disengaged source performs
no T operation" at destination `some 0`, source `none`. -/
theorem move_from_disengaged_dtor_counterexample :
    (XtdOpt.assignMove (some 0) (none : Option Nat)).2 = [XtdOpt.TEvent.dtor] ∧
    (XtdOpt.assignMove (some 0) (none : Option Nat)).2 ≠ [] := by
  exact ⟨rfl, by decide⟩

/-- C7 (amended): move-constructing or move-assigning from an engaged source
leaves the source still engaged (never transitions it to disengaged); moving
from a disengaged source leaves both sides disengaged and performs no `T`
operation on the source — with one `T` destructor call on the destination's
old value when move-assigning into an engaged destination, and no `T`
operation at all otherwise. -/
theorem move_source_stays_engaged {α : Type} (x v : α) (dst : Option α) :
    (XtdOpt.constructMoveFrom (some v)).1.2 = some v ∧
    (XtdOpt.assignMove dst (some v)).1.2 = some v ∧
    XtdOpt.constructMoveFrom (none : Option α) = ((none, none), []) ∧
    XtdOpt.assignMove (none : Option α) none = ((none, none), []) ∧
    XtdOpt.assignMove (some x) (none : Option α) =
      ((none, none), [XtdOpt.TEvent.dtor]) := by
  cases dst <;> exact ⟨rfl, rfl, rfl, rfl, rfl⟩

/-- C8: the hash adapter is a homomorphism on engaged optionals — the hash of
an engaged optional is the hash of its contained value under the same hash
function — and constant on disengaged ones: any two disengaged optionals of
the same specialization hash to the single canonical representative `0`
(the value-initialized `result_type{}`). -/
theorem hash_adapter_spec {α : Type} (h : α → Nat) (v : α) (s t : Option α)
    (hs : s = none) (ht : t = none) :
    XtdOpt.hashOpt h (some v) = h v ∧
    XtdOpt.hashOpt h s = XtdOpt.hashOpt h t ∧
    XtdOpt.hashOpt h s = 0 := by
  subst hs; subst ht
  exact ⟨rfl, rfl, rfl⟩

/-- Witness for `hash_adapter_spec` over `Nat` with the successor function as
hash and contained value `41`. -/
theorem hash_adapter_spec_witness :
    XtdOpt.hashOpt (fun n => n + 1) (some 41) = 42 :=
  (hash_adapter_spec (fun n => n + 1) 41 none none rfl rfl).1

/-- C10: for a disengaged optional and any raw value, all four mixed ordering
comparisons hold simultaneously — `opt < v`, `v < opt`, `opt > v` and
`v > opt` all evaluate to `true` — so the mixed ordering is not trichotomous;
by contrast, against the disengaged marker a disengaged optional is neither
strictly below nor strictly above it, and the marker is strictly below every
engaged optional. -/
theorem disengaged_mixed_comparisons {α : Type} (lt : α → α → Bool) (v : α) :
    XtdOpt.ltOptVal lt none v = true ∧
    XtdOpt.ltValOpt lt v none = true ∧
    XtdOpt.gtOptVal lt none v = true ∧
    XtdOpt.gtValOpt lt v none = true ∧
    XtdOpt.ltOptNull (none : Option α) = false ∧
    XtdOpt.ltNullOpt (none : Option α) = false ∧
    XtdOpt.ltNullOpt (some v) = true := by
  exact ⟨rfl, rfl, rfl, rfl, rfl, rfl, rfl⟩

/-- C9: the trivially-destructible storage specialization (no destructor of
its own, engaged/disengaged treated purely as a flag) is observably
equivalent to the general storage path: from each of the three holder
constructors, every sequence of `construct`/`destroy` operations yields the
same engaged state and the same contained value at every step — and even the
same trace of `T` operations during the run; the two differ only in the
destructor call skipped at scope exit. -/
theorem storage_specializations_equivalent {α : Type} (flag : Bool) (v : α)
    (ops : List (XtdOpt.StorageOp α)) :
    (XtdOpt.TrivStorage.run XtdOpt.TrivStorage.initDefault ops).1.obs
      = (XtdOpt.GenStorage.run XtdOpt.GenStorage.initDefault ops).1.obs ∧
    (XtdOpt.TrivStorage.run (XtdOpt.TrivStorage.initValue v) ops).1.obs
      = (XtdOpt.GenStorage.run (XtdOpt.GenStorage.initValue v) ops).1.obs ∧
    (XtdOpt.TrivStorage.run (XtdOpt.TrivStorage.initInPlace flag v) ops).1.obs
      = (XtdOpt.GenStorage.run (XtdOpt.GenStorage.initInPlace flag v) ops).1.obs ∧
    (XtdOpt.TrivStorage.run (XtdOpt.TrivStorage.initInPlace flag v) ops).2
      = (XtdOpt.GenStorage.run (XtdOpt.GenStorage.initInPlace flag v) ops).2 := by
  have h1 := XtdOpt.run_obs_eq ops XtdOpt.TrivStorage.initDefault
    XtdOpt.GenStorage.initDefault rfl rfl
  have h2 := XtdOpt.run_obs_eq ops (XtdOpt.TrivStorage.initValue v)
    (XtdOpt.GenStorage.initValue v) rfl rfl
  have h3 := XtdOpt.run_obs_eq ops (XtdOpt.TrivStorage.initInPlace flag v)
    (XtdOpt.GenStorage.initInPlace flag v) rfl rfl
  refine ⟨?_, ?_, ?_, h3.2.2⟩ <;>
    simp [XtdOpt.TrivStorage.obs, XtdOpt.GenStorage.obs, h1.1, h1.2.1,
      h2.1, h2.2.1, h3.1, h3.2.1]
